import Mathlib

/-!
# Verification of the Smart PDF Compressor core

A shallow embedding of the `pdfcompress` Python package (modules
`analyzer.py`, `compressor.py`, `utils.py`) together with proofs about the
content classifier, the bound estimator, the top-level `compress` dispatcher
and the (quality, DPI) grid search of `PDFCompressor._compress_image_heavy`.

Modelling conventions:
* Python `float` arithmetic is embedded as exact rational arithmetic (`ℚ`);
  the constants appearing in the source (0.1, 0.3, 0.8, …) are written as the
  corresponding rationals.
* Python `int(x)` (truncation toward zero) is `pyInt`.
* The externally-dependent body of `_compress_with_settings` (PyMuPDF open /
  image re-encoding / save) is abstracted by an oracle giving, per
  (quality, dpi) pair, either the saved output's byte size (plus the number
  of images rewritten) or the message of a raised exception.  The
  surrounding control flow — result construction, the nested loop with its
  shared iteration counter, early return, best-so-far tracking, the file
  written at `output_path`, and document-handle open/close bookkeeping — is
  embedded faithfully.
-/

namespace PdfCompress

/-- Python `int(q)` for a rational `q`: truncation toward zero. -/
def pyInt (q : ℚ) : Int :=
  if 0 ≤ q then q.floor else -((-q).floor)

/-! ## utils.py -/

/-- `utils.calculate_compression_ratio`: `1 - compressed/original`, `0`
when the original size is `0`. -/
def calculate_compression_ratio (original_size compressed_size : Nat) : ℚ :=
  if original_size = 0 then 0
  else 1 - (compressed_size : ℚ) / (original_size : ℚ)

/-- `utils.estimate_quality_score`: coarse quality label from the size
ratio, the image percentage and the JPEG quality level used. -/
def estimate_quality_score (original_size compressed_size : Nat)
    (image_percentage : ℚ) (compression_level : Nat) : String :=
  let ratio : ℚ :=
    if original_size > 0 then (compressed_size : ℚ) / (original_size : ℚ) else 1
  if ratio > 7/10 then "Excellent"
  else if ratio > 5/10 then "Good"
  else if ratio > 3/10 then "Fair"
  else if image_percentage > 70 ∧ compression_level < 50 then "Acceptable"
  else "Reduced"

/-! ## analyzer.py -/

/-- `analyzer.ImageInfo`: metadata of one (deduplicated) embedded image. -/
structure ImageInfo where
  page_number : Nat
  width : Nat
  height : Nat
  bits_per_component : Nat
  colorspace : String
  size_bytes : Nat
  xref : Nat
  compression : String := "unknown"
deriving DecidableEq

/-- `PDFAnalyzer._determine_pdf_type`: classify the document from the image
byte percentage and the text volume.  `chars_per_page` is
`text_count / page_count` when `page_count > 0` and `0` otherwise. -/
def determine_pdf_type (image_percentage : ℚ) (has_text : Bool)
    (text_count : Nat) (page_count : Nat) : String :=
  let chars_per_page : ℚ :=
    if page_count > 0 then (text_count : ℚ) / (page_count : ℚ) else 0
  if image_percentage > 70 then "image-heavy"
  else if image_percentage < 20 ∧ chars_per_page > 500 then "text-heavy"
  else "mixed"

/-- The classifier rule as C5 words it (spec comparison definition): the
text-heavy guard divides by `max(pageCount, 1)` instead of guarding on
`pageCount > 0`. -/
def determine_pdf_type_claimC5 (image_percentage : ℚ) (has_text : Bool)
    (text_count : Nat) (page_count : Nat) : String :=
  let chars_per_page : ℚ := (text_count : ℚ) / (max page_count 1 : ℚ)
  if image_percentage > 70 then "image-heavy"
  else if image_percentage < 20 ∧ chars_per_page > 500 then "text-heavy"
  else "mixed"

/-- Python `str.lower()` on the ASCII codec tags stored in
`ImageInfo.compression` (character-wise ASCII lowercasing). -/
def pyLower (s : String) : String := String.mk (s.data.map Char.toLower)

/-- Is this image's source codec in the jpeg family
(`img.compression.lower() in ['jpeg', 'jpg']`)? -/
def isJpegFamily (img : ImageInfo) : Bool :=
  pyLower img.compression = "jpeg" ∨ pyLower img.compression = "jpg"

/-- Is this image's source codec png (`img.compression.lower() == 'png'`)? -/
def isPng (img : ImageInfo) : Bool :=
  pyLower img.compression = "png"

/-- The `(avg_image_reduction_min, avg_image_reduction_max)` pair chosen in
`PDFAnalyzer._estimate_compression` from the codec mix: initialized to
`(0.3, 0.7)`, overwritten to `(0.5, 0.8)` when `jpeg_ratio > 0.8`, else to
`(0.2, 0.5)` when more than half the images are png. -/
def image_reduction_pair (images : List ImageInfo) : ℚ × ℚ :=
  let jpeg_count := (images.filter isJpegFamily).length
  let png_count := (images.filter isPng).length
  if images.length ≠ 0 then
    let jpeg_ratio : ℚ := (jpeg_count : ℚ) / (images.length : ℚ)
    if jpeg_ratio > 8/10 then (5/10, 8/10)
    else if (png_count : ℚ) / (images.length : ℚ) > 5/10 then (2/10, 5/10)
    else (3/10, 7/10)
  else (3/10, 7/10)

/-- `PDFAnalyzer._estimate_compression`: predicted
`(minimum achievable size, maximum achievable size)`. -/
def estimate_compression (file_size : Nat) (image_percentage : ℚ)
    (images : List ImageInfo) (has_text : Bool) (has_embedded_fonts : Bool) :
    Int × Int :=
  let image_fraction : ℚ := image_percentage / 100
  let non_image_fraction : ℚ := 1 - image_fraction
  let p := image_reduction_pair images
  let image_size : ℚ := (file_size : ℚ) * image_fraction
  let non_image_size : ℚ := (file_size : ℚ) * non_image_fraction
  let non_image_reduction_min : ℚ := if has_embedded_fonts then 8/10 * 9/10 else 8/10
  let non_image_reduction_max : ℚ := if has_embedded_fonts then 95/100 * 95/100 else 95/100
  let min_size := pyInt (image_size * p.1 + non_image_size * non_image_reduction_min)
  let max_size := pyInt (image_size * p.2 + non_image_size * non_image_reduction_max)
  let min_size' := max min_size (pyInt ((file_size : ℚ) * (1/10)))
  let max_size' := max max_size min_size'
  (min_size', max_size')

/-! ## compressor.py

`PDFCompressor._compress_with_settings` opens the document, re-encodes each
image at the trial (quality, dpi), saves to `output_path` and measures the
saved size; any raised exception is caught and turned into a failed
`CompressionResult`.  Its externally-determined outcome per (quality, dpi)
pair is abstracted as a `SettingsOracle`; everything else (result
construction, the grid loop, state effects) is embedded below. -/

/-- `compressor.CompressionResult` (paths and serialization helper omitted
from the claims' scope are kept as plain fields / dropped `to_dict`). -/
structure CompressionResult where
  success : Bool
  input_path : String
  output_path : String
  original_size : Nat
  compressed_size : Nat
  compression_ratio : ℚ
  quality_estimate : String
  pages_processed : Nat
  images_processed : Nat
  target_size : Nat
  target_achieved : Bool
  iterations : Nat := 1
  error : Option String := none
deriving DecidableEq

/-- `QUALITY_LEVELS` of `PDFCompressor`. -/
def QUALITY_LEVELS : List Nat := [95, 85, 75, 65, 55, 45, 35, 25]

/-- `DPI_LEVELS` of `PDFCompressor`. -/
def DPI_LEVELS : List Nat := [300, 200, 150, 120, 100, 72]

/-- One entry of `PDFCompressor.tolerance_config`. -/
structure ToleranceConfig where
  max_iterations : Nat
  min_quality : Nat
  min_dpi : Nat
deriving DecidableEq

/-- The `tolerance_config` dictionary; `none` models a `KeyError` on an
unrecognized tolerance name. -/
def tolerance_config : String → Option ToleranceConfig
  | "strict" => some ⟨10, 25, 72⟩
  | "balanced" => some ⟨6, 45, 100⟩
  | "high_clarity" => some ⟨4, 65, 150⟩
  | _ => none

/-- What one successful `_compress_with_settings` body produces: the byte
size `doc.save` left at `output_path` and the number of images replaced. -/
structure SettingsOutcome where
  savedSize : Nat
  imagesProcessed : Nat
deriving DecidableEq

/-- Externally-determined outcome of one `_compress_with_settings` body:
either it runs to completion or some step raises an exception with a
message (caught by the surrounding `except Exception as e`). -/
inductive AttemptOutcome where
  | ok (o : SettingsOutcome)
  | err (msg : String)
deriving DecidableEq

/-- The document/environment behavior per (quality, dpi) pair. -/
def SettingsOracle : Type := Nat → Nat → AttemptOutcome

/-- Did this attempt produce a saved output of size ≤ `target`? -/
def hitsTarget (target : Nat) : AttemptOutcome → Prop
  | .ok o => o.savedSize ≤ target
  | .err _ => False

instance (target : Nat) (a : AttemptOutcome) : Decidable (hitsTarget target a) := by
  cases a <;> simp [hitsTarget] <;> infer_instance

/-- Fixed inputs of one `_compress_image_heavy` / `_compress_mixed` run. -/
structure Ctx where
  input_path : String
  output_path : String
  target_size : Nat
  file_size : Nat
  page_count : Nat
  image_percentage : ℚ
  oracle : SettingsOracle

/-- Observable environment state threaded through the grid search:
`iteration` is the Python loop counter, `trace` the attempt outcomes (most
recent first), `disk` the byte size of the file currently saved at
`output_path` (`none` = never written), `open_handles` the number of
`fitz.open` document handles not yet closed. -/
structure SearchState where
  iteration : Nat
  best : Option CompressionResult
  best_size : Nat
  trace : List AttemptOutcome
  disk : Option Nat
  open_handles : Nat

/-- `PDFCompressor._compress_with_settings`: opens a handle, runs the body
(outcome from the oracle), saves and closes on success; on an exception the
`except` branch builds a failed result and returns WITHOUT closing the
handle (there is no `finally`), so the handle count stays incremented. -/
def compress_with_settings (ctx : Ctx) (quality dpi : Nat) (st : SearchState) :
    CompressionResult × SearchState :=
  match ctx.oracle quality dpi with
  | .ok o =>
      ({ success := true
         input_path := ctx.input_path
         output_path := ctx.output_path
         original_size := ctx.file_size
         compressed_size := o.savedSize
         compression_ratio := calculate_compression_ratio ctx.file_size o.savedSize
         quality_estimate := estimate_quality_score ctx.file_size o.savedSize
           ctx.image_percentage quality
         pages_processed := ctx.page_count
         images_processed := o.imagesProcessed
         target_size := ctx.target_size
         target_achieved := o.savedSize ≤ ctx.target_size },
       { st with trace := .ok o :: st.trace, disk := some o.savedSize })
  | .err e =>
      ({ success := false
         input_path := ctx.input_path
         output_path := ctx.output_path
         original_size := ctx.file_size
         compressed_size := ctx.file_size
         compression_ratio := 0
         quality_estimate := "N/A"
         pages_processed := 0
         images_processed := 0
         target_size := ctx.target_size
         target_achieved := false
         error := some e },
       { st with trace := .err e :: st.trace, open_handles := st.open_handles + 1 })

/-- Result of the inner (DPI) loop: either the enclosing function returned
early (`ret`) or the loop finished / broke and control continues (`cont`). -/
inductive InnerRes where
  | ret (r : CompressionResult) (st : SearchState)
  | cont (st : SearchState)

/-- The inner `for dpi in self.DPI_LEVELS` loop of
`_compress_image_heavy`, for one fixed quality. -/
def innerLoop (ctx : Ctx) (cfg : ToleranceConfig) (quality : Nat) :
    List Nat → SearchState → InnerRes
  | [], st => .cont st
  | dpi :: rest, st =>
    if dpi < cfg.min_dpi then .cont st
    else if cfg.max_iterations < st.iteration + 1 then
      .cont { st with iteration := st.iteration + 1 }
    else
      match compress_with_settings ctx quality dpi { st with iteration := st.iteration + 1 } with
      | (r, st1) =>
        if r.success then
          if r.compressed_size ≤ ctx.target_size then
            .ret { r with target_achieved := true, iterations := st.iteration + 1 } st1
          else if r.compressed_size < st1.best_size then
            innerLoop ctx cfg quality rest
              { st1 with best := some r, best_size := r.compressed_size }
          else innerLoop ctx cfg quality rest st1
        else innerLoop ctx cfg quality rest st1

/-- The fallthrough of `_compress_image_heavy` after the loops: return the
best retained attempt, else the "Could not achieve target size" failure. -/
def finalizeResult (ctx : Ctx) (st : SearchState) : CompressionResult :=
  match st.best with
  | some b => { b with target_achieved := b.compressed_size ≤ ctx.target_size }
  | none =>
    { success := false
      input_path := ctx.input_path
      output_path := ctx.output_path
      original_size := ctx.file_size
      compressed_size := ctx.file_size
      compression_ratio := 0
      quality_estimate := "N/A"
      pages_processed := 0
      images_processed := 0
      target_size := ctx.target_size
      target_achieved := false
      error := some "Could not achieve target size" }

/-- The outer `for quality in self.QUALITY_LEVELS` loop of
`_compress_image_heavy`. -/
def outerLoop (ctx : Ctx) (cfg : ToleranceConfig) :
    List Nat → SearchState → CompressionResult × SearchState
  | [], st => (finalizeResult ctx st, st)
  | q :: rest, st =>
    if q < cfg.min_quality then (finalizeResult ctx st, st)
    else
      match innerLoop ctx cfg q DPI_LEVELS st with
      | .ret r st1 => (r, st1)
      | .cont st1 =>
        if cfg.max_iterations < st1.iteration then (finalizeResult ctx st1, st1)
        else outerLoop ctx cfg rest st1

/-- Search state at entry of `_compress_image_heavy`
(`iteration = 0`, `best_result = None`, `best_size = analysis.file_size`). -/
def initState (file_size : Nat) : SearchState :=
  { iteration := 0, best := none, best_size := file_size, trace := [],
    disk := none, open_handles := 0 }

/-- `PDFCompressor._compress_image_heavy` (also `_compress_mixed`, which
delegates to it unchanged), returning the result together with the final
environment state. -/
def compress_image_heavy (ctx : Ctx) (cfg : ToleranceConfig) :
    CompressionResult × SearchState :=
  outerLoop ctx cfg QUALITY_LEVELS (initState ctx.file_size)

/-- `PDFCompressor._compress_text_heavy`: one `doc.save` pass; outcome of
the save abstracted as an `AttemptOutcome`. -/
def compress_text_heavy (ctx : Ctx) (save : AttemptOutcome) : CompressionResult :=
  match save with
  | .ok o =>
    { success := true
      input_path := ctx.input_path
      output_path := ctx.output_path
      original_size := ctx.file_size
      compressed_size := o.savedSize
      compression_ratio := calculate_compression_ratio ctx.file_size o.savedSize
      quality_estimate := estimate_quality_score ctx.file_size o.savedSize
        ctx.image_percentage 90
      pages_processed := ctx.page_count
      images_processed := 0
      target_size := ctx.target_size
      target_achieved := o.savedSize ≤ ctx.target_size }
  | .err e =>
    { success := false
      input_path := ctx.input_path
      output_path := ctx.output_path
      original_size := ctx.file_size
      compressed_size := ctx.file_size
      compression_ratio := 0
      quality_estimate := "N/A"
      pages_processed := 0
      images_processed := 0
      target_size := ctx.target_size
      target_achieved := false
      error := some e }

/-- The analysis fields `PDFCompressor.compress` consults. -/
structure AnalysisData where
  file_size : Nat
  page_count : Nat
  image_percentage : ℚ
  pdf_type : String
  error : Option String := none

/-- Record of one top-level `PDFCompressor.compress` call: the returned
result, whether `PDFAnalyzer.analyze` was invoked, and the grid-search
state when the grid search ran (`none` otherwise). -/
structure CompressRun where
  result : CompressionResult
  analyzer_ran : Bool
  search_state : Option SearchState

/-- `PDFCompressor.compress`: short-circuit byte copy when the input is
already under target, then analysis, then strategy dispatch.  `analysis` is
what `PDFAnalyzer.analyze` would return if invoked; `textSave` the outcome
of the text-heavy single save pass; the overall `none` models the uncaught
`KeyError` a grid-search run raises on an unrecognized tolerance name. -/
def compress (input_path output_path : String) (original_size target_size : Nat)
    (tolerance : String) (analysis : AnalysisData) (oracle : SettingsOracle)
    (textSave : AttemptOutcome) : Option CompressRun :=
  if original_size ≤ target_size then
    some
      { result :=
          { success := true
            input_path := input_path
            output_path := output_path
            original_size := original_size
            compressed_size := original_size
            compression_ratio := 0
            quality_estimate := "Excellent"
            pages_processed := 0
            images_processed := 0
            target_size := target_size
            target_achieved := true }
        analyzer_ran := false
        search_state := none }
  else
    match analysis.error with
    | some e =>
      some
        { result :=
            { success := false
              input_path := input_path
              output_path := output_path
              original_size := original_size
              compressed_size := original_size
              compression_ratio := 0
              quality_estimate := "N/A"
              pages_processed := 0
              images_processed := 0
              target_size := target_size
              target_achieved := false
              error := some e }
          analyzer_ran := true
          search_state := none }
    | none =>
      let ctx : Ctx :=
        { input_path := input_path, output_path := output_path
          target_size := target_size, file_size := analysis.file_size
          page_count := analysis.page_count
          image_percentage := analysis.image_percentage, oracle := oracle }
      if analysis.pdf_type = "text-heavy" then
        some { result := compress_text_heavy ctx textSave
               analyzer_ran := true, search_state := none }
      else
        match tolerance_config tolerance with
        | none => none
        | some cfg =>
          let rs := compress_image_heavy ctx cfg
          some { result := rs.1, analyzer_ran := true, search_state := some rs.2 }

/-! ## Invariants of the grid search -/

/-- The saved size of a successful attempt outcome. -/
def okSize : AttemptOutcome → Option Nat
  | .ok o => some o.savedSize
  | .err _ => none

/-- Did this attempt raise an exception? -/
def isErr : AttemptOutcome → Bool
  | .ok _ => false
  | .err _ => true

/-- No (quality, dpi) setting ever produces a saved output within target:
the document "requires the full ladder". -/
def NoHit (ctx : Ctx) : Prop :=
  ∀ q d, ¬ hitsTarget ctx.target_size (ctx.oracle q d)

/-- The loop counter agrees with the number of attempts made. -/
def Aligned (st : SearchState) : Prop := st.iteration = st.trace.length

/-- The number of attempts made is within the iteration budget. -/
def Budget (cfg : ToleranceConfig) (st : SearchState) : Prop :=
  st.trace.length ≤ cfg.max_iterations

/-- The counter was incremented past the budget (which stops the search)
after exactly `max_iterations` attempts. -/
def Overflowed (cfg : ToleranceConfig) (st : SearchState) : Prop :=
  st.iteration = cfg.max_iterations + 1 ∧ st.trace.length = cfg.max_iterations

/-- State invariant of the `_compress_image_heavy` loops (`trace` is most
recent attempt first). -/
structure StInv (ctx : Ctx) (st : SearchState) : Prop where
  miss : ∀ a ∈ st.trace, ¬ hitsTarget ctx.target_size a
  best_none : st.best = none →
    ∀ a ∈ st.trace, ∀ o, a = .ok o → ctx.file_size ≤ o.savedSize
  best_none_size : st.best = none → st.best_size = ctx.file_size
  best_size_le : st.best_size ≤ ctx.file_size
  best_some : ∀ b, st.best = some b → b.success = true ∧ b.iterations = 1 ∧
    b.compressed_size = st.best_size ∧ st.best_size < ctx.file_size ∧
    ∃ o, AttemptOutcome.ok o ∈ st.trace ∧ o.savedSize = b.compressed_size
  disk_eq : st.disk = st.trace.findSome? okSize
  handles : st.open_handles = (st.trace.filter isErr).length

/-- What holds when `_compress_image_heavy` returns out of the loop (the
first attempt that met the target). -/
structure RetProps (ctx : Ctx) (cfg : ToleranceConfig)
    (r : CompressionResult) (st : SearchState) : Prop where
  success : r.success = true
  achieved : r.target_achieved = true
  iter_eq : r.iterations = st.trace.length
  within : st.trace.length ≤ cfg.max_iterations
  hit : ∃ o, st.trace.head? = some (.ok o) ∧ o.savedSize ≤ ctx.target_size ∧
    r.compressed_size = o.savedSize
  tail_miss : ∀ a ∈ st.trace.tail, ¬ hitsTarget ctx.target_size a
  inv_disk : st.disk = st.trace.findSome? okSize
  inv_handles : st.open_handles = (st.trace.filter isErr).length

theorem innerLoop_spec (ctx : Ctx) (cfg : ToleranceConfig) (q : Nat) :
    ∀ (dpis : List Nat) (st : SearchState), StInv ctx st → Aligned st → Budget cfg st →
    (∃ st', innerLoop ctx cfg q dpis st = .cont st' ∧ StInv ctx st' ∧
        ((Aligned st' ∧ Budget cfg st') ∨ Overflowed cfg st')) ∨
    (∃ r st', innerLoop ctx cfg q dpis st = .ret r st' ∧ RetProps ctx cfg r st')
  | [], st, hinv, hal, hb => .inl ⟨st, rfl, hinv, .inl ⟨hal, hb⟩⟩
  | dpi :: rest, st, hinv, hal, hb => by
    unfold Aligned at hal
    unfold Budget at hb
    simp only [innerLoop]
    by_cases hd : dpi < cfg.min_dpi
    · rw [if_pos hd]
      exact .inl ⟨st, rfl, hinv, .inl ⟨hal, hb⟩⟩
    rw [if_neg hd]
    by_cases hm : cfg.max_iterations < st.iteration + 1
    · rw [if_pos hm]
      refine .inl ⟨_, rfl,
        ⟨hinv.miss, hinv.best_none, hinv.best_none_size, hinv.best_size_le,
          hinv.best_some, hinv.disk_eq, hinv.handles⟩, .inr ⟨?_, ?_⟩⟩
      · show st.iteration + 1 = cfg.max_iterations + 1
        omega
      · show st.trace.length = cfg.max_iterations
        omega
    rw [if_neg hm]
    cases ho : ctx.oracle q dpi with
    | ok o =>
      simp only [compress_with_settings, ho]
      by_cases hts : o.savedSize ≤ ctx.target_size
      · rw [if_pos hts]
        refine .inr ⟨_, _, rfl, ?_⟩
        refine ⟨rfl, rfl, ?_, ?_, ⟨o, by simp, hts, rfl⟩, ?_, ?_, ?_⟩
        · show st.iteration + 1 = st.trace.length + 1
          omega
        · show st.trace.length + 1 ≤ cfg.max_iterations
          omega
        · exact hinv.miss
        · simp [List.findSome?_cons, okSize]
        · simp [isErr, hinv.handles]
      · rw [if_neg hts]
        by_cases hlt : o.savedSize < st.best_size
        · rw [if_pos hlt]
          refine innerLoop_spec ctx cfg q rest _
            ⟨?_, ?_, ?_, ?_, ?_, ?_, ?_⟩ ?_ ?_
          · intro a ha
            rcases List.mem_cons.1 ha with rfl | ha
            · simpa [hitsTarget] using hts
            · exact hinv.miss a ha
          · intro h; simp at h
          · intro h; simp at h
          · exact le_of_lt (lt_of_lt_of_le hlt hinv.best_size_le)
          · intro b hb'
            rw [Option.some_inj] at hb'
            subst hb'
            exact ⟨rfl, rfl, rfl, lt_of_lt_of_le hlt hinv.best_size_le,
              o, by simp, rfl⟩
          · simp [List.findSome?_cons, okSize]
          · simp [isErr, hinv.handles]
          · show st.iteration + 1 = st.trace.length + 1
            omega
          · show st.trace.length + 1 ≤ cfg.max_iterations
            omega
        · rw [if_neg hlt]
          refine innerLoop_spec ctx cfg q rest _
            ⟨?_, ?_, ?_, ?_, ?_, ?_, ?_⟩ ?_ ?_
          · intro a ha
            rcases List.mem_cons.1 ha with rfl | ha
            · simpa [hitsTarget] using hts
            · exact hinv.miss a ha
          · intro hnone a ha o' heq
            rcases List.mem_cons.1 ha with rfl | ha
            · cases heq
              have := hinv.best_none_size hnone
              omega
            · exact hinv.best_none hnone a ha o' heq
          · exact hinv.best_none_size
          · exact hinv.best_size_le
          · intro b hb'
            obtain ⟨h1, h2, h3, h4, o0, ho0, hsz⟩ := hinv.best_some b hb'
            exact ⟨h1, h2, h3, h4, o0, List.mem_cons_of_mem _ ho0, hsz⟩
          · simp [List.findSome?_cons, okSize]
          · simp [isErr, hinv.handles]
          · show st.iteration + 1 = st.trace.length + 1
            omega
          · show st.trace.length + 1 ≤ cfg.max_iterations
            omega
    | err e =>
      simp only [compress_with_settings, ho]
      refine innerLoop_spec ctx cfg q rest _
        ⟨?_, ?_, ?_, ?_, ?_, ?_, ?_⟩ ?_ ?_
      · intro a ha
        rcases List.mem_cons.1 ha with rfl | ha
        · simp [hitsTarget]
        · exact hinv.miss a ha
      · intro hnone a ha o' heq
        rcases List.mem_cons.1 ha with rfl | ha
        · cases heq
        · exact hinv.best_none hnone a ha o' heq
      · exact hinv.best_none_size
      · exact hinv.best_size_le
      · intro b hb'
        obtain ⟨h1, h2, h3, h4, o0, ho0, hsz⟩ := hinv.best_some b hb'
        exact ⟨h1, h2, h3, h4, o0, List.mem_cons_of_mem _ ho0, hsz⟩
      · simp [List.findSome?_cons, okSize, hinv.disk_eq]
      · simp [isErr, hinv.handles]
      · show st.iteration + 1 = st.trace.length + 1
        omega
      · show st.trace.length + 1 ≤ cfg.max_iterations
        omega


theorem outerLoop_spec (ctx : Ctx) (cfg : ToleranceConfig) :
    ∀ (qs : List Nat) (st : SearchState), StInv ctx st → Aligned st → Budget cfg st →
    (∃ st', outerLoop ctx cfg qs st = (finalizeResult ctx st', st') ∧
        StInv ctx st' ∧ Budget cfg st') ∨
    (∃ r st', outerLoop ctx cfg qs st = (r, st') ∧ RetProps ctx cfg r st')
  | [], st, hinv, hal, hb => .inl ⟨st, rfl, hinv, hb⟩
  | q :: rest, st, hinv, hal, hb => by
    simp only [outerLoop]
    by_cases hq : q < cfg.min_quality
    · rw [if_pos hq]
      exact .inl ⟨st, rfl, hinv, hb⟩
    rw [if_neg hq]
    rcases innerLoop_spec ctx cfg q DPI_LEVELS st hinv hal hb with
      ⟨st1, heq, hinv1, hcase⟩ | ⟨r, st1, heq, hret⟩
    · simp only [heq]
      rcases hcase with ⟨hal1, hb1⟩ | ⟨hov1, hov2⟩
      · have hni : ¬ cfg.max_iterations < st1.iteration := by
          unfold Aligned at hal1; unfold Budget at hb1; omega
        rw [if_neg hni]
        exact outerLoop_spec ctx cfg rest st1 hinv1 hal1 hb1
      · have hyes : cfg.max_iterations < st1.iteration := by omega
        rw [if_pos hyes]
        refine .inl ⟨st1, rfl, hinv1, ?_⟩
        unfold Budget
        omega
    · simp only [heq]
      exact .inr ⟨r, st1, rfl, hret⟩

/-- The search state at entry of the grid loop satisfies the invariant. -/
theorem initState_inv (ctx : Ctx) : StInv ctx (initState ctx.file_size) := by
  refine ⟨?_, ?_, ?_, ?_, ?_, ?_, ?_⟩ <;> simp [initState]

/-- Master characterization of one `_compress_image_heavy` run: it either
falls through the loops (returning the best-effort / failure result from a
state satisfying the invariant, within budget) or returns early out of the
inner loop with `RetProps`. -/
theorem compress_image_heavy_spec (ctx : Ctx) (cfg : ToleranceConfig) :
    (∃ st, compress_image_heavy ctx cfg = (finalizeResult ctx st, st) ∧
        StInv ctx st ∧ Budget cfg st) ∨
    (∃ r st, compress_image_heavy ctx cfg = (r, st) ∧ RetProps ctx cfg r st) := by
  have h := outerLoop_spec ctx cfg QUALITY_LEVELS (initState ctx.file_size)
    (initState_inv ctx) rfl (by simp [initState, Budget])
  rcases h with ⟨st, heq, hinv, hb⟩ | ⟨r, st, heq, hret⟩
  · exact .inl ⟨st, heq, hinv, hb⟩
  · exact .inr ⟨r, st, heq, hret⟩

theorem innerLoop_count (ctx : Ctx) (cfg : ToleranceConfig) (q : Nat) (hnh : NoHit ctx) :
    ∀ (dpis : List Nat) (st : SearchState), st.iteration = st.trace.length →
      st.trace.length ≤ cfg.max_iterations →
    ∃ st', innerLoop ctx cfg q dpis st = .cont st' ∧
      st'.trace.length =
        min (st.trace.length + (dpis.takeWhile (fun d => cfg.min_dpi ≤ d)).length)
          cfg.max_iterations ∧
      st'.iteration =
        min (st.trace.length + (dpis.takeWhile (fun d => cfg.min_dpi ≤ d)).length)
          (cfg.max_iterations + 1)
  | [], st, hal, hb => ⟨st, rfl, by simp [List.takeWhile]; omega, by simp [List.takeWhile, hal]; omega⟩
  | dpi :: rest, st, hal, hb => by
    simp only [innerLoop]
    by_cases hd : dpi < cfg.min_dpi
    · rw [if_pos hd]
      have hp : (decide (cfg.min_dpi ≤ dpi)) = false := by
        simp only [decide_eq_false_iff_not]
        omega
      refine ⟨st, rfl, ?_, ?_⟩
      · simp only [List.takeWhile_cons, hp, Bool.false_eq_true, if_false,
          List.length_nil, Nat.add_zero]
        omega
      · simp only [List.takeWhile_cons, hp, Bool.false_eq_true, if_false,
          List.length_nil, Nat.add_zero, hal]
        omega
    rw [if_neg hd]
    have hp : (decide (cfg.min_dpi ≤ dpi)) = true := by
      simp only [decide_eq_true_eq]
      omega
    have hTW : ((dpi :: rest).takeWhile (fun d => decide (cfg.min_dpi ≤ d))).length
        = (rest.takeWhile (fun d => decide (cfg.min_dpi ≤ d))).length + 1 := by
      simp [List.takeWhile_cons, hp]
    by_cases hm : cfg.max_iterations < st.iteration + 1
    · rw [if_pos hm]
      refine ⟨_, rfl, ?_, ?_⟩
      · show st.trace.length = _
        rw [hTW]
        omega
      · show st.iteration + 1 = _
        rw [hTW]
        omega
    rw [if_neg hm]
    have key : ∀ st2 : SearchState, st2.iteration = st.trace.length + 1 →
        st2.trace.length = st.trace.length + 1 →
        ∃ st', innerLoop ctx cfg q rest st2 = .cont st' ∧
          st'.trace.length =
            min (st.trace.length +
              ((dpi :: rest).takeWhile (fun d => cfg.min_dpi ≤ d)).length)
              cfg.max_iterations ∧
          st'.iteration =
            min (st.trace.length +
              ((dpi :: rest).takeWhile (fun d => cfg.min_dpi ≤ d)).length)
              (cfg.max_iterations + 1) := by
      intro st2 e1 e2
      obtain ⟨st', heq, k1, k2⟩ := innerLoop_count ctx cfg q hnh rest st2
        (by omega) (by omega)
      refine ⟨st', heq, ?_, ?_⟩
      · rw [k1, e2, hTW]
        omega
      · rw [k2, e2, hTW]
        omega
    cases ho : ctx.oracle q dpi with
    | ok o =>
      simp only [compress_with_settings, ho]
      have hts : ¬ o.savedSize ≤ ctx.target_size := by
        have := hnh q dpi
        rw [ho] at this
        simpa [hitsTarget] using this
      rw [if_neg hts]
      by_cases hlt : o.savedSize < st.best_size
      · rw [if_pos hlt]
        exact key _ (by simp [hal]) (by simp)
      · rw [if_neg hlt]
        exact key _ (by simp [hal]) (by simp)
    | err e =>
      simp only [compress_with_settings, ho]
      exact key _ (by simp [hal]) (by simp)

theorem outerLoop_count (ctx : Ctx) (cfg : ToleranceConfig) (hnh : NoHit ctx) :
    ∀ (qs : List Nat) (st : SearchState), st.iteration = st.trace.length →
      st.trace.length ≤ cfg.max_iterations →
    (outerLoop ctx cfg qs st).2.trace.length =
      min (st.trace.length + (qs.takeWhile (fun q => cfg.min_quality ≤ q)).length *
        (DPI_LEVELS.takeWhile (fun d => cfg.min_dpi ≤ d)).length) cfg.max_iterations
  | [], st, hal, hb => by
    simp only [outerLoop, List.takeWhile_nil, List.length_nil, Nat.zero_mul, Nat.add_zero]
    omega
  | q :: rest, st, hal, hb => by
    simp only [outerLoop]
    by_cases hq : q < cfg.min_quality
    · rw [if_pos hq]
      have hp : (decide (cfg.min_quality ≤ q)) = false := by
        simp only [decide_eq_false_iff_not]
        omega
      simp only [List.takeWhile_cons, hp, Bool.false_eq_true, if_false,
        List.length_nil, Nat.zero_mul, Nat.add_zero]
      omega
    rw [if_neg hq]
    have hp : (decide (cfg.min_quality ≤ q)) = true := by
      simp only [decide_eq_true_eq]
      omega
    have hQ : ((q :: rest).takeWhile (fun x => decide (cfg.min_quality ≤ x))).length
        = (rest.takeWhile (fun x => decide (cfg.min_quality ≤ x))).length + 1 := by
      simp [List.takeWhile_cons, hp]
    obtain ⟨st1, heq, h1, h2⟩ := innerLoop_count ctx cfg q hnh DPI_LEVELS st hal hb
    simp only [heq]
    by_cases hover : cfg.max_iterations < st1.iteration
    · rw [if_pos hover]
      show st1.trace.length = _
      rw [h1, hQ]
      have ht : cfg.max_iterations + 1 ≤
          st.trace.length + (DPI_LEVELS.takeWhile (fun d => decide (cfg.min_dpi ≤ d))).length := by
        omega
      generalize hA : (DPI_LEVELS.takeWhile (fun d => decide (cfg.min_dpi ≤ d))).length = A at *
      generalize hB : (rest.takeWhile (fun x => decide (cfg.min_quality ≤ x))).length = B at *
      have : st.trace.length + A ≤ st.trace.length + (B + 1) * A := by
        have : A ≤ (B + 1) * A := Nat.le_mul_of_pos_left A (Nat.succ_pos B)
        omega
      omega
    · rw [if_neg hover]
      have hle : st1.iteration ≤ cfg.max_iterations := by omega
      have hal1 : st1.iteration = st1.trace.length := by
        rw [h1, h2]
        omega
      have hb1 : st1.trace.length ≤ cfg.max_iterations := by
        rw [h1]
        omega
      have := outerLoop_count ctx cfg hnh rest st1 hal1 hb1
      rw [this, h1, hQ]
      generalize hA : (DPI_LEVELS.takeWhile (fun d => decide (cfg.min_dpi ≤ d))).length = A at *
      generalize hB : (rest.takeWhile (fun x => decide (cfg.min_quality ≤ x))).length = B at *
      have hsum : st.trace.length + A ≤ cfg.max_iterations := by omega
      have hmul : (B + 1) * A = B * A + A := Nat.succ_mul B A
      rw [Nat.min_eq_left hsum, hmul]
      omega

/-- Total number of attempts of a full grid-search run on a document that
never meets the target: the planned ladder size capped by the budget. -/
theorem compress_image_heavy_count (ctx : Ctx) (cfg : ToleranceConfig) (hnh : NoHit ctx) :
    (compress_image_heavy ctx cfg).2.trace.length =
      min ((QUALITY_LEVELS.takeWhile (fun q => cfg.min_quality ≤ q)).length *
        (DPI_LEVELS.takeWhile (fun d => cfg.min_dpi ≤ d)).length) cfg.max_iterations := by
  have h := outerLoop_count ctx cfg hnh QUALITY_LEVELS (initState ctx.file_size)
    rfl (by simp [initState])
  simpa [compress_image_heavy, initState] using h

/-- One inner-loop step whose attempt saves within target: the function
returns that attempt immediately. -/
theorem innerLoop_step_ret (ctx : Ctx) (cfg : ToleranceConfig) (q dpi : Nat) (rest : List Nat)
    (st : SearchState) (o : SettingsOutcome)
    (hd : ¬ dpi < cfg.min_dpi) (hm : ¬ cfg.max_iterations < st.iteration + 1)
    (ho : ctx.oracle q dpi = .ok o) (hts : o.savedSize ≤ ctx.target_size) :
    innerLoop ctx cfg q (dpi :: rest) st =
      .ret
        { success := true
          input_path := ctx.input_path
          output_path := ctx.output_path
          original_size := ctx.file_size
          compressed_size := o.savedSize
          compression_ratio := calculate_compression_ratio ctx.file_size o.savedSize
          quality_estimate := estimate_quality_score ctx.file_size o.savedSize
            ctx.image_percentage q
          pages_processed := ctx.page_count
          images_processed := o.imagesProcessed
          target_size := ctx.target_size
          target_achieved := true
          iterations := st.iteration + 1
          error := none }
        { st with
          iteration := st.iteration + 1
          trace := .ok o :: st.trace
          disk := some o.savedSize } := by
  simp only [innerLoop]
  rw [if_neg hd, if_neg hm]
  simp only [compress_with_settings, ho]
  rw [if_pos hts]
  simp

/-- One outer-loop step whose inner loop returned early: the pair is
propagated unchanged. -/
theorem outerLoop_step_ret (ctx : Ctx) (cfg : ToleranceConfig) (q : Nat) (rest : List Nat)
    (st st1 : SearchState) (r : CompressionResult)
    (hq : ¬ q < cfg.min_quality)
    (hin : innerLoop ctx cfg q DPI_LEVELS st = .ret r st1) :
    outerLoop ctx cfg (q :: rest) st = (r, st1) := by
  simp only [outerLoop]
  rw [if_neg hq, hin]

/-- If the very first planned attempt (quality 95, DPI 300) saves within
target, the whole grid search stops there: `iterations = 1`, exactly one
attempt was made, and the result is flagged `target_achieved`. -/
theorem compress_image_heavy_firstHit (ctx : Ctx) (cfg : ToleranceConfig) (o : SettingsOutcome)
    (hq : cfg.min_quality ≤ 95) (hd : cfg.min_dpi ≤ 300) (hm : 1 ≤ cfg.max_iterations)
    (ho : ctx.oracle 95 300 = .ok o) (hts : o.savedSize ≤ ctx.target_size) :
    (compress_image_heavy ctx cfg).1.target_achieved = true ∧
    (compress_image_heavy ctx cfg).1.iterations = 1 ∧
    (compress_image_heavy ctx cfg).2.trace.length = 1 := by
  have hd' : ¬ (300 : Nat) < cfg.min_dpi := by omega
  have hq' : ¬ (95 : Nat) < cfg.min_quality := by omega
  have hm' : ¬ cfg.max_iterations < (initState ctx.file_size).iteration + 1 := by
    simp only [initState]
    omega
  have hin := innerLoop_step_ret ctx cfg 95 300 [200, 150, 120, 100, 72]
    (initState ctx.file_size) o hd' hm' ho hts
  have hout := outerLoop_step_ret ctx cfg 95 [85, 75, 65, 55, 45, 35, 25]
    (initState ctx.file_size) _ _ hq' hin
  have hrun : compress_image_heavy ctx cfg = _ := hout
  rw [hrun]
  simp [initState]

/-! ## Concrete fixtures used by witnesses and counterexamples -/

/-- A grid-search context with the given target, file size and oracle. -/
def mkCtx (tgt fs : Nat) (oracle : SettingsOracle) : Ctx :=
  { input_path := "in.pdf", output_path := "out.pdf", target_size := tgt,
    file_size := fs, page_count := 3, image_percentage := 80, oracle := oracle }

/-- Attempts save 90 / 80 / 85 bytes depending on the setting: never within
a 10-byte target, smallest at (quality 95, DPI 200), later saves larger. -/
def oracleBest : SettingsOracle := fun q d =>
  .ok ⟨if q = 95 ∧ d = 300 then 90 else if q = 95 ∧ d = 200 then 80 else 85, 2⟩

/-- Every attempt immediately saves 5 bytes (within any target ≥ 5). -/
def oracleHit : SettingsOracle := fun _ _ => .ok ⟨5, 1⟩

/-- Every attempt saves a 1000000-byte output (never within target). -/
def oracleBig : SettingsOracle := fun _ _ => .ok ⟨1000000, 0⟩

/-- Every attempt raises a mid-processing exception. -/
def oracleErr : SettingsOracle := fun _ _ => .err "save failed"

/-- Every attempt succeeds but the saved output is exactly as large as the
100-byte input. -/
def oracleFlat : SettingsOracle := fun _ _ => .ok ⟨100, 0⟩

/-- A jpeg-codec image record. -/
def jpegImage (x : Nat) : ImageInfo := ⟨1, 100, 100, 8, "DeviceRGB", 1000, x, "jpeg"⟩

/-- An unknown-codec image record. -/
def otherImage (x : Nat) : ImageInfo := ⟨1, 100, 100, 8, "DeviceRGB", 1000, x, "unknown"⟩

/-! ## Claims -/

/-- **C1.** In every image-heavy/mixed grid-search run (the trace lists
attempts most recent first): every attempt other than the final one fails
to save within target, and when the final attempt saved within target the
run returned it immediately with `target_achieved = true` and `iterations`
equal to the number of attempts consumed so far.  In particular, under any
recognized tolerance profile, if the very first attempt (quality 95,
DPI 300) saves within target, the run returns `iterations = 1` after
exactly one attempt. -/
theorem C1_first_success_wins (ctx : Ctx) :
    (∀ cfg : ToleranceConfig,
      (∀ a ∈ (compress_image_heavy ctx cfg).2.trace.tail,
        ¬ hitsTarget ctx.target_size a) ∧
      (∀ a, (compress_image_heavy ctx cfg).2.trace.head? = some a →
        hitsTarget ctx.target_size a →
        (compress_image_heavy ctx cfg).1.target_achieved = true ∧
        (compress_image_heavy ctx cfg).1.iterations =
          (compress_image_heavy ctx cfg).2.trace.length)) ∧
    (∀ tol cfg o, tolerance_config tol = some cfg →
      ctx.oracle 95 300 = .ok o → o.savedSize ≤ ctx.target_size →
      (compress_image_heavy ctx cfg).1.target_achieved = true ∧
      (compress_image_heavy ctx cfg).1.iterations = 1 ∧
      (compress_image_heavy ctx cfg).2.trace.length = 1) := by
  constructor
  · intro cfg
    rcases compress_image_heavy_spec ctx cfg with ⟨st, heq, hinv, hb⟩ | ⟨r, st, heq, hret⟩
    · rw [heq]
      refine ⟨fun a ha => hinv.miss a (List.mem_of_mem_tail ha), fun a hh hhit => ?_⟩
      exact absurd hhit (hinv.miss a (List.mem_of_mem_head? (by simp [hh])))
    · rw [heq]
      exact ⟨hret.tail_miss, fun a hh hhit => ⟨hret.achieved, hret.iter_eq⟩⟩
  · intro tol cfg o htol ho hts
    have hcfgs : cfg = ⟨10, 25, 72⟩ ∨ cfg = ⟨6, 45, 100⟩ ∨ cfg = ⟨4, 65, 150⟩ := by
      unfold tolerance_config at htol
      split at htol <;> simp_all
    rcases hcfgs with rfl | rfl | rfl <;>
      exact compress_image_heavy_firstHit ctx _ o (by decide) (by decide) (by decide) ho hts

theorem C1_witness :
    (compress_image_heavy (mkCtx 10 100 oracleHit) ⟨6, 45, 100⟩).1.target_achieved = true ∧
    (compress_image_heavy (mkCtx 10 100 oracleHit) ⟨6, 45, 100⟩).1.iterations = 1 ∧
    (compress_image_heavy (mkCtx 10 100 oracleHit) ⟨6, 45, 100⟩).2.trace.length = 1 :=
  (C1_first_success_wins (mkCtx 10 100 oracleHit)).2 "balanced" ⟨6, 45, 100⟩ ⟨5, 1⟩
    rfl rfl (by decide)

/-- **C2.** The grid search never makes more than `max_iterations` calls to
`_compress_with_settings` (the counter is shared across both nested loops),
and against a document for which no setting reaches the target it makes
exactly 10 / 6 / 4 attempts under strict / balanced / high_clarity. -/
theorem C2_iteration_budget :
    (∀ ctx cfg, (compress_image_heavy ctx cfg).2.trace.length ≤ cfg.max_iterations) ∧
    (∀ ctx, NoHit ctx →
      (compress_image_heavy ctx ⟨10, 25, 72⟩).2.trace.length = 10 ∧
      (compress_image_heavy ctx ⟨6, 45, 100⟩).2.trace.length = 6 ∧
      (compress_image_heavy ctx ⟨4, 65, 150⟩).2.trace.length = 4) := by
  constructor
  · intro ctx cfg
    rcases compress_image_heavy_spec ctx cfg with ⟨st, heq, _, hb⟩ | ⟨r, st, heq, hret⟩
    · rw [heq]
      exact hb
    · rw [heq]
      exact hret.within
  · intro ctx hnh
    refine ⟨?_, ?_, ?_⟩ <;>
    · rw [compress_image_heavy_count ctx _ hnh]
      decide

theorem C2_witness :
    (compress_image_heavy (mkCtx 10 100 oracleBig) ⟨10, 25, 72⟩).2.trace.length = 10 ∧
    (compress_image_heavy (mkCtx 10 100 oracleBig) ⟨6, 45, 100⟩).2.trace.length = 6 ∧
    (compress_image_heavy (mkCtx 10 100 oracleBig) ⟨4, 65, 150⟩).2.trace.length = 4 :=
  C2_iteration_budget.2 (mkCtx 10 100 oracleBig)
    (fun q d => by simp [mkCtx, oracleBig, hitsTarget])

/-- **C3 (amended).** A grid-search run returns `success = false` exactly
when no attempt ever produced a saved output that was strictly smaller than
the original file size (or within target): every successful save whose size
is at least `analysis.file_size` is discarded by the best-so-far comparison
(`best_size` starts at `file_size`), so a run whose attempts all succeed at
producing output can still end `success = false`. -/
theorem C3_success_iff (ctx : Ctx) (cfg : ToleranceConfig) :
    (compress_image_heavy ctx cfg).1.success = false ↔
    (∀ a ∈ (compress_image_heavy ctx cfg).2.trace, ∀ o, a = .ok o →
      ctx.target_size < o.savedSize ∧ ctx.file_size ≤ o.savedSize) := by
  rcases compress_image_heavy_spec ctx cfg with ⟨st, heq, hinv, _⟩ | ⟨r, st, heq, hret⟩
  · rw [heq]
    cases hbo : st.best with
    | none =>
      simp only [finalizeResult, hbo]
      constructor
      · intro _ a ha o hao
        refine ⟨?_, hinv.best_none hbo a ha o hao⟩
        have := hinv.miss a ha
        rw [hao] at this
        simp only [hitsTarget] at this
        omega
      · intro _
        trivial
    | some b =>
      obtain ⟨hs, _, hcs, hlt, o0, hmem, hsz⟩ := hinv.best_some b hbo
      simp only [finalizeResult, hbo]
      constructor
      · intro hfalse
        have : b.success = false := hfalse
        rw [hs] at this
        cases this
      · intro hall
        have := (hall (.ok o0) hmem o0 rfl).2
        omega
  · rw [heq]
    obtain ⟨o, hhead, hle, _⟩ := hret.hit
    constructor
    · intro hfalse
      have : r.success = false := hfalse
      rw [hret.success] at this
      cases this
    · intro hall
      have hmem : AttemptOutcome.ok o ∈ st.trace :=
        List.mem_of_mem_head? (by simp [hhead])
      have := (hall (.ok o) hmem o rfl).1
      omega

/-- **C3, counterexample to the claim as stated.** With a 100-byte input, a
50-byte target and every attempt succeeding at saving a 100-byte output,
all six (balanced) attempts produce saved outputs, yet the run returns
`success = false`. -/
theorem C3_counterexample :
    (compress_image_heavy (mkCtx 50 100 oracleFlat) ⟨6, 45, 100⟩).1.success = false ∧
    (compress_image_heavy (mkCtx 50 100 oracleFlat) ⟨6, 45, 100⟩).1.error =
      some "Could not achieve target size" ∧
    (compress_image_heavy (mkCtx 50 100 oracleFlat) ⟨6, 45, 100⟩).2.trace.length = 6 ∧
    (∀ a ∈ (compress_image_heavy (mkCtx 50 100 oracleFlat) ⟨6, 45, 100⟩).2.trace,
      isErr a = false) := by
  decide

theorem C3_witness :
    (compress_image_heavy (mkCtx 50 100 oracleFlat) ⟨6, 45, 100⟩).1.success = false := by
  refine (C3_success_iff (mkCtx 50 100 oracleFlat) ⟨6, 45, 100⟩).mpr ?_
  have htr : (compress_image_heavy (mkCtx 50 100 oracleFlat) ⟨6, 45, 100⟩).2.trace =
      List.replicate 6 (.ok ⟨100, 0⟩) := by decide
  rw [htr]
  intro a ha o hao
  rw [List.mem_replicate] at ha
  rw [ha.2] at hao
  injection hao with h
  rw [← h]
  exact ⟨by decide, by decide⟩

/-- **C4.** The file present at `output_path` when the search returns is
always the most recent successful attempt's save (`trace` is most recent
first, so it is the first `ok` entry of the trace); concretely, a balanced
best-effort run over saves of 90 / 80 / 85 / 85 / 85 / 85 bytes reports the
best size 80 while the file on disk holds the last attempt's 85 bytes —
strictly larger than the reported `compressed_size`. -/
theorem C4_disk_vs_reported :
    (∀ ctx cfg, (compress_image_heavy ctx cfg).2.disk =
      (compress_image_heavy ctx cfg).2.trace.findSome? okSize) ∧
    ((compress_image_heavy (mkCtx 10 100 oracleBest) ⟨6, 45, 100⟩).1.success = true ∧
     (compress_image_heavy (mkCtx 10 100 oracleBest) ⟨6, 45, 100⟩).1.target_achieved = false ∧
     (compress_image_heavy (mkCtx 10 100 oracleBest) ⟨6, 45, 100⟩).1.compressed_size = 80 ∧
     (compress_image_heavy (mkCtx 10 100 oracleBest) ⟨6, 45, 100⟩).2.disk = some 85 ∧
     (compress_image_heavy (mkCtx 10 100 oracleBest) ⟨6, 45, 100⟩).1.compressed_size < 85) := by
  constructor
  · intro ctx cfg
    rcases compress_image_heavy_spec ctx cfg with ⟨st, heq, hinv, _⟩ | ⟨r, st, heq, hret⟩
    · rw [heq]
      exact hinv.disk_eq
    · rw [heq]
      exact hret.inv_disk
  · decide

/-- **C10.** Whenever the grid search does not return through the
early-success path (equivalently, whenever the returned result has
`target_achieved = false` — both the best-effort and the all-failed
fallback), the returned `iterations` is the dataclass default `1`,
regardless of how many attempts were consumed. -/
theorem C10_best_effort_iterations (ctx : Ctx) (cfg : ToleranceConfig)
    (h : (compress_image_heavy ctx cfg).1.target_achieved = false) :
    (compress_image_heavy ctx cfg).1.iterations = 1 := by
  rcases compress_image_heavy_spec ctx cfg with ⟨st, heq, hinv, _⟩ | ⟨r, st, heq, hret⟩
  · rw [heq]
    cases hbo : st.best with
    | none => simp [finalizeResult, hbo]
    | some b =>
      have h1 := (hinv.best_some b hbo).2.1
      simp [finalizeResult, hbo, h1]
  · rw [heq] at h
    have : r.target_achieved = false := h
    rw [hret.achieved] at this
    cases this

theorem C10_witness :
    (compress_image_heavy (mkCtx 10 100 oracleBest) ⟨6, 45, 100⟩).1.iterations = 1 :=
  C10_best_effort_iterations (mkCtx 10 100 oracleBest) ⟨6, 45, 100⟩ (by decide)

/-- **C5 (amended).** The classifier's rule, evaluated in order with first
match winning: `image_percentage > 70` gives image-heavy (so exactly 70
does not); otherwise `image_percentage < 20` together with a
characters-per-page ratio above 500 gives text-heavy, where the ratio is
`text_count / page_count` for `page_count > 0` and `0` when
`page_count = 0` (NOT `text_count / max(page_count, 1)`); otherwise mixed —
in particular `page_count = 0` always yields mixed when not image-heavy. -/
theorem C5_classifier_rule (ip : ℚ) (ht : Bool) (tc pc : Nat) :
    (ip > 70 → determine_pdf_type ip ht tc pc = "image-heavy") ∧
    (determine_pdf_type 70 ht tc pc ≠ "image-heavy") ∧
    (¬ ip > 70 → ip < 20 → 0 < pc → (tc : ℚ) / (pc : ℚ) > 500 →
      determine_pdf_type ip ht tc pc = "text-heavy") ∧
    (¬ ip > 70 → ¬ (ip < 20 ∧ (if pc > 0 then (tc : ℚ) / (pc : ℚ) else 0) > 500) →
      determine_pdf_type ip ht tc pc = "mixed") ∧
    (pc = 0 → ¬ ip > 70 → determine_pdf_type ip ht tc pc = "mixed") := by
  refine ⟨?_, ?_, ?_, ?_, ?_⟩
  · intro h
    simp [determine_pdf_type, h]
  · have h2 : ¬ ((70 : ℚ) < 20 ∧ (if pc > 0 then (tc : ℚ) / (pc : ℚ) else 0) > 500) := by
      rintro ⟨h, _⟩
      norm_num at h
    simp only [determine_pdf_type]
    rw [if_neg (by norm_num : ¬ (70 : ℚ) > 70), if_neg h2]
    decide
  · intro h1 h2 h3 h4
    have hcp : (if pc > 0 then (tc : ℚ) / (pc : ℚ) else 0) > 500 := by
      rw [if_pos h3]
      exact h4
    simp [determine_pdf_type, h1, h2, hcp]
  · intro h1 h2
    simp only [determine_pdf_type]
    rw [if_neg h1, if_neg h2]
  · intro h0 h1
    subst h0
    simp [determine_pdf_type, h1]

/-- **C5, counterexample to the claim as stated.** At
`(image_percentage, text_count, page_count) = (10, 600, 0)` the spec's
`max(page_count, 1)` formula classifies text-heavy, but the code's rule
(characters-per-page is 0 when `page_count = 0`) classifies mixed. -/
theorem C5_counterexample :
    determine_pdf_type 10 true 600 0 = "mixed" ∧
    determine_pdf_type_claimC5 10 true 600 0 = "text-heavy" ∧
    determine_pdf_type 10 true 600 0 ≠ determine_pdf_type_claimC5 10 true 600 0 := by
  refine ⟨?_, ?_, ?_⟩ <;> with_unfolding_all decide

theorem C5_witness :
    (10 : ℚ) ≤ 70 ∧ (10 : ℚ) < 20 ∧ 0 < 2 ∧ ((1200 : ℚ) / (2 : ℚ) > 500) ∧
    determine_pdf_type 10 true 1200 2 = "text-heavy" :=
  ⟨by norm_num, by norm_num, by norm_num, by norm_num,
    (C5_classifier_rule 10 true 1200 2).2.2.1 (by norm_num) (by norm_num)
      (by norm_num) (by norm_num)⟩

/-- **C6.** When the input file is already no larger than the target, the
top-level `compress` performs the byte-copy short circuit: it returns
`success = true`, `compressed_size = original_size`,
`compression_ratio = 0`, `target_achieved = true` and `iterations = 1`,
without invoking the analyzer (classifier) or any search strategy. -/
theorem C6_short_circuit (ip op : String) (original_size target_size : Nat)
    (tol : String) (analysis : AnalysisData) (oracle : SettingsOracle)
    (textSave : AttemptOutcome) (h : original_size ≤ target_size) :
    compress ip op original_size target_size tol analysis oracle textSave =
      some
        { result :=
            { success := true
              input_path := ip
              output_path := op
              original_size := original_size
              compressed_size := original_size
              compression_ratio := 0
              quality_estimate := "Excellent"
              pages_processed := 0
              images_processed := 0
              target_size := target_size
              target_achieved := true
              iterations := 1
              error := none }
          analyzer_ran := false
          search_state := none } := by
  simp [compress, h]

theorem C6_witness :
    compress "in.pdf" "out.pdf" 5 10 "balanced" ⟨100, 3, 80, "image-heavy", none⟩
      oracleHit (.ok ⟨1, 0⟩) =
      some
        { result :=
            { success := true
              input_path := "in.pdf"
              output_path := "out.pdf"
              original_size := 5
              compressed_size := 5
              compression_ratio := 0
              quality_estimate := "Excellent"
              pages_processed := 0
              images_processed := 0
              target_size := 10
              target_achieved := true
              iterations := 1
              error := none }
          analyzer_ran := false
          search_state := none } :=
  C6_short_circuit "in.pdf" "out.pdf" 5 10 "balanced" ⟨100, 3, 80, "image-heavy", none⟩
    oracleHit (.ok ⟨1, 0⟩) (by decide)

/-- **C7 (amended).** The Bound Estimator always returns
`minBytes ≤ maxBytes`, and `minBytes` is at least the Python-truncated
`int(0.1 * file_size)` — but not always at least the real value
`0.1 * file_size` itself, which fails for small sizes not divisible by 10
(see the counterexample). -/
theorem C7_bounds (fs : Nat) (ip : ℚ) (images : List ImageInfo) (ht hf : Bool) :
    pyInt ((fs : ℚ) * (1/10)) ≤ (estimate_compression fs ip images ht hf).1 ∧
    (estimate_compression fs ip images ht hf).1 ≤
      (estimate_compression fs ip images ht hf).2 := by
  constructor
  · exact le_max_right _ _
  · exact le_max_right _ _

/-- **C7, counterexample to the claim as stated.** For a 3-byte fully-image
file with no recorded images, the estimator returns `minBytes = 0`, which
is strictly below `0.1 × fileSize = 0.3`. -/
theorem C7_counterexample :
    (estimate_compression 3 100 [] false false).1 = 0 ∧
    ¬ ((3 : ℚ) * (1/10) ≤ ((estimate_compression 3 100 [] false false).1 : ℚ)) := by
  with_unfolding_all decide

/-- **C8 (amended).** The jpeg-family reduction pair `(0.5, 0.8)` is chosen
only when STRICTLY more than 80% of the images are jpeg-family
(`jpeg_ratio > 0.8` in the code); a document with exactly 80% jpeg images
does not take this branch (see the counterexample). -/
theorem C8_jpeg_pair (images : List ImageInfo) (hne : images ≠ [])
    (hj : ((images.filter isJpegFamily).length : ℚ) / (images.length : ℚ) > 8/10) :
    image_reduction_pair images = (5/10, 8/10) := by
  have hlen : images.length ≠ 0 := by
    simpa [List.length_eq_zero] using hne
  simp [image_reduction_pair, hlen, hj]

/-- **C8, counterexample to the claim as stated.** Five images of which
exactly four (80%) are jpeg: the code's strict `> 0.8` test fails and the
default pair `(0.3, 0.7)` is used instead of `(0.5, 0.8)`. -/
theorem C8_counterexample :
    ((([jpegImage 1, jpegImage 2, jpegImage 3, jpegImage 4,
        otherImage 5].filter isJpegFamily).length : ℚ) /
      (([jpegImage 1, jpegImage 2, jpegImage 3, jpegImage 4,
        otherImage 5] : List ImageInfo).length : ℚ) = 8/10) ∧
    image_reduction_pair
      [jpegImage 1, jpegImage 2, jpegImage 3, jpegImage 4, otherImage 5] =
      (3/10, 7/10) ∧
    image_reduction_pair
      [jpegImage 1, jpegImage 2, jpegImage 3, jpegImage 4, otherImage 5] ≠
      (5/10, 8/10) := by
  refine ⟨?_, ?_, ?_⟩ <;> with_unfolding_all decide

theorem C8_witness :
    image_reduction_pair [jpegImage 1, jpegImage 2, jpegImage 3, jpegImage 4,
      jpegImage 5] = (5/10, 8/10) :=
  C8_jpeg_pair _ (by decide) (by with_unfolding_all decide)

/-- **C9.** Document-handle accounting of the grid search:
`open_handles` (handles acquired by `fitz.open` and never closed) equals
the number of attempts that ended in the `except` branch of
`_compress_with_settings`, because that branch returns without
`doc.close()`; a balanced run whose six attempts all raise leaves six
handles open at return, contradicting the release-on-every-path claim. -/
theorem C9_handle_leak :
    (∀ ctx cfg, (compress_image_heavy ctx cfg).2.open_handles =
      ((compress_image_heavy ctx cfg).2.trace.filter isErr).length) ∧
    (compress_image_heavy (mkCtx 10 100 oracleErr) ⟨6, 45, 100⟩).2.open_handles = 6 := by
  constructor
  · intro ctx cfg
    rcases compress_image_heavy_spec ctx cfg with ⟨st, heq, hinv, _⟩ | ⟨r, st, heq, hret⟩
    · rw [heq]
      exact hinv.handles
    · rw [heq]
      exact hret.inv_handles
  · decide

end PdfCompress
